import Mathlib

set_option linter.unnecessarySeqFocus false

/-!
Verification of the `react-focus-point` widget (`src/components/FocusPoint.tsx`).

The component's core logic is embedded shallowly:

* JavaScript numbers are modelled by `JSNum`: finite values are exact
  rationals, and `NaN` and the two infinities are explicit constructors,
  because the code divides by `rect.width` / `rect.height`, which can be zero.
* The component's transient state (the `x`, `y`, `canMove` hooks, the pair of
  document-level release listeners, and whether the component is mounted) is
  the structure `State`; every event handler of the source becomes a function
  from `State` (plus the event payload) to a new `State` together with the
  list of `onChange` callback invocations it performs.
* The container's bounding rectangle is an `Option Rect` parameter: `none`
  models `containerRef.current` being `null` (component not mounted in the
  DOM); a mounted container always yields some rectangle, possibly zero-sized.
-/

namespace FocusPointSpec

/-- Model of a JavaScript number: finite values are exact rationals, with
explicit `NaN` and infinities (produced here only by division by zero). -/
inductive JSNum where
  | nan : JSNum
  | posInf : JSNum
  | negInf : JSNum
  | num (q : ℚ) : JSNum
deriving DecidableEq

/-- JavaScript division `a / b` of finite numbers: division by zero yields
`NaN` when the numerator is zero and a signed infinity otherwise. -/
def jsDiv (a b : ℚ) : JSNum :=
  if b = 0 then
    if a = 0 then JSNum.nan
    else if 0 < a then JSNum.posInf
    else JSNum.negInf
  else JSNum.num (a / b)

/-- `Math.max x q` for a finite second argument: `NaN` propagates,
`-Infinity` is absorbed by `q`. -/
def jsMax (x : JSNum) (q : ℚ) : JSNum :=
  match x with
  | JSNum.nan => JSNum.nan
  | JSNum.posInf => JSNum.posInf
  | JSNum.negInf => JSNum.num q
  | JSNum.num a => JSNum.num (max a q)

/-- `Math.min x q` for a finite second argument: `NaN` propagates,
`+Infinity` is absorbed by `q`. -/
def jsMin (x : JSNum) (q : ℚ) : JSNum :=
  match x with
  | JSNum.nan => JSNum.nan
  | JSNum.posInf => JSNum.num q
  | JSNum.negInf => JSNum.negInf
  | JSNum.num a => JSNum.num (min a q)

/-- `calculatePercentage` (FocusPoint.tsx lines 68-70):
`Math.min(Math.max((value * 100) / max, 0), 100)`. -/
def calculatePercentage (value max : ℚ) : JSNum :=
  jsMin (jsMax (jsDiv (value * 100) max) 0) 100

/-- The `FocusPoint` value passed to `onChange` and held in component state
(`src/types/index.ts`): an `x` and a `y` coordinate. -/
structure FocusPoint where
  x : JSNum
  y : JSNum
deriving DecidableEq

/-- A DOM bounding rectangle as returned by `getBoundingClientRect`. -/
structure Rect where
  left : ℚ
  top : ℚ
  width : ℚ
  height : ℚ
deriving DecidableEq

/-- The configuration relevant to the interaction logic: the
`allowImageClick` prop (default `true`). -/
structure Config where
  allowImageClick : Bool
deriving DecidableEq

/-- The component's mutable state: the `x` / `y` percentage hooks, the
`canMove` drag flag, whether the pair of document-level `mouseup` /
`mouseleave` listeners is currently registered, and whether the component is
still mounted. -/
structure State where
  x : JSNum
  y : JSNum
  canMove : Bool
  listenersRegistered : Bool
  mounted : Bool
deriving DecidableEq

/-- `DEFAULT_PERCENTAGE` (FocusPoint.tsx line 27). -/
def DEFAULT_PERCENTAGE : ℚ := 50

/-- The state after the first render: `x` / `y` seeded from the optional
`focusPoint` prop or the 50% default, not dragging, no listeners. -/
def initialState (fp : Option FocusPoint) : State :=
  { x := match fp with
         | some p => p.x
         | none => JSNum.num DEFAULT_PERCENTAGE
  , y := match fp with
         | some p => p.y
         | none => JSNum.num DEFAULT_PERCENTAGE
  , canMove := false
  , listenersRegistered := false
  , mounted := true }

/-- `handleMouseMove` (FocusPoint.tsx lines 73-86): bail out unless dragging
and the container ref is live; otherwise convert the pointer position to
percentages, store them, and invoke `onChange` with the same pair. The
returned list collects the `onChange` invocations. -/
def handleMouseMove (rect : Option Rect) (s : State) (clientX clientY : ℚ) :
    State × List FocusPoint :=
  if !s.canMove then (s, [])
  else
    match rect with
    | none => (s, [])
    | some r =>
      let xPixels := clientX - r.left
      let yPixels := clientY - r.top
      let newX := calculatePercentage xPixels r.width
      let newY := calculatePercentage yPixels r.height
      ({ s with x := newX, y := newY }, [⟨newX, newY⟩])

/-- `handleContainerClick` (FocusPoint.tsx lines 89-111): bail out when
clicking is disabled or a drag is in progress, when the click target is the
indicator button (or sits inside one), or when the container ref is dead;
otherwise convert, store and report the new percentages. -/
def handleContainerClick (cfg : Config) (rect : Option Rect) (s : State)
    (clientX clientY : ℚ) (targetIsButton : Bool) : State × List FocusPoint :=
  if !cfg.allowImageClick || s.canMove then (s, [])
  else if targetIsButton then (s, [])
  else
    match rect with
    | none => (s, [])
    | some r =>
      let newX := calculatePercentage (clientX - r.left) r.width
      let newY := calculatePercentage (clientY - r.top) r.height
      ({ s with x := newX, y := newY }, [⟨newX, newY⟩])

/-- `handleMouseDown` (FocusPoint.tsx lines 114-122): start dragging and
register the document-level release listeners. -/
def handleMouseDown (s : State) : State :=
  { s with canMove := true, listenersRegistered := true }

/-- `handleMouseUp` (FocusPoint.tsx lines 125-129): stop dragging and remove
the document-level release listeners. -/
def handleMouseUp (s : State) : State :=
  { s with canMove := false, listenersRegistered := false }

/-- The indicator's `onKeyDown` handler (FocusPoint.tsx lines 163-169):
Enter or Space toggles the `canMove` flag; it registers no listeners. -/
def onKeyDown (s : State) (key : String) : State :=
  if key = "Enter" ∨ key = " " then { s with canMove := !s.canMove } else s

/-- The events the embedded component reacts to. `documentMouseUp` is a
pointer release observed at the document level (possibly outside the
widget's element tree); `unmount` is React tearing the component down. -/
inductive Event where
  | mouseMove (clientX clientY : ℚ) : Event
  | containerClick (clientX clientY : ℚ) (targetIsButton : Bool) : Event
  | indicatorMouseDown : Event
  | indicatorMouseUp : Event
  | documentMouseUp : Event
  | keyDown (key : String) : Event
  | unmount : Event
deriving DecidableEq

/-- One event dispatch. Handlers attached to the component's own elements
run only while it is mounted; the document-level listener installed by
`handleMouseDown` runs whenever it is registered (the source installs no
unmount cleanup, so the closure outlives the component). -/
def step (cfg : Config) (rect : Option Rect) (s : State) (e : Event) :
    State × List FocusPoint :=
  match e with
  | Event.mouseMove cx cy =>
      if s.mounted then handleMouseMove rect s cx cy else (s, [])
  | Event.containerClick cx cy tb =>
      if s.mounted then handleContainerClick cfg rect s cx cy tb else (s, [])
  | Event.indicatorMouseDown =>
      if s.mounted then (handleMouseDown s, []) else (s, [])
  | Event.indicatorMouseUp =>
      if s.mounted then (handleMouseUp s, []) else (s, [])
  | Event.documentMouseUp =>
      if s.listenersRegistered then (handleMouseUp s, []) else (s, [])
  | Event.keyDown k =>
      if s.mounted then (onKeyDown s k, []) else (s, [])
  | Event.unmount => ({ s with mounted := false }, [])

/-- Run a sequence of events, collecting every `onChange` invocation. -/
def run (cfg : Config) (rect : Option Rect) (s : State) :
    List Event → State × List FocusPoint
  | [] => (s, [])
  | e :: es =>
      let r1 := step cfg rect s e
      let r2 := run cfg rect r1.1 es
      (r2.1, r1.2 ++ r2.2)

/-- The default configuration: `allowImageClick` defaults to `true`. -/
def cfgDefault : Config := ⟨true⟩

/-- The 300×300 container rectangle at the origin used by the repository's
own tests. -/
def rect300 : Rect := ⟨0, 0, 300, 300⟩

/-- The initial state of an uncontrolled component: centred, idle. -/
def s0 : State := initialState none

/-- The pixel-to-percentage mapping applied on both axes, exactly as in
`handleMouseMove` (lines 77-81) and `handleContainerClick` (lines 102-106):
subtract the rectangle origin and feed `calculatePercentage` the pixel offset
and the rectangle's extent on that axis. -/
def mapper (px py : ℚ) (r : Rect) : JSNum × JSNum :=
  (calculatePercentage (px - r.left) r.width,
   calculatePercentage (py - r.top) r.height)

/-- The spec's per-axis formula,
`clamp((pointerCoord - rectOrigin) * 100 / rectSize, 0, 100)`,
written over exact rationals. -/
def specClamp (coord origin size : ℚ) : ℚ :=
  min (max ((coord - origin) * 100 / size) 0) 100

/-- A `JSNum` is a finite value lying in the closed interval `[0, 100]`. -/
def inRange (v : JSNum) : Prop :=
  ∃ q : ℚ, v = JSNum.num q ∧ 0 ≤ q ∧ q ≤ 100

/-- A prop object as seen across renders: a reference identity (`ref`)
paired with the field values the object currently carries. React compares
`useEffect` dependencies with `Object.is`, i.e. by reference for objects. -/
structure PropObject where
  ref : ℕ
  value : FocusPoint
deriving DecidableEq

/-- `Object.is` comparison of the previous and next `[initialFocusPoint]`
dependency arrays: equal when both are absent or both are the same object
reference; field values play no part. -/
def depsEqual (prev next : Option PropObject) : Bool :=
  match prev, next with
  | none, none => true
  | some a, some b => a.ref == b.ref
  | _, _ => false

/-- The `useEffect` of FocusPoint.tsx lines 53-58: when the dependency
comparison fails, and the prop is present, overwrite the internal `x` / `y`
state with the prop's fields; otherwise leave the state alone. -/
def focusPointEffect (prev next : Option PropObject) (s : State) : State :=
  if depsEqual prev next then s
  else
    match next with
    | some p => { s with x := p.value.x, y := p.value.y }
    | none => s

/-- Tag recording which handler produced a callback invocation: the
container's click handler or the drag move handler. -/
inductive Origin where
  | click : Origin
  | drag : Origin
deriving DecidableEq

/-- A single user gesture, distinguished by where the press and the release
land, because the browser dispatches the gesture's synthetic click event on
the nearest common inclusive ancestor of the mousedown and mouseup targets:

* `backgroundClick` - press and release both on the container background;
  the click event targets the background.
* `indicatorDrag` - press, moves and release all on the indicator button;
  the click event targets the button itself.
* `indicatorDragReleaseOnBackground` - press on the indicator but release
  over the container background (the usual end of a real drag, and also the
  configuration reached when the document `mouseleave` listener already
  ended the drag mid-gesture); the click event then targets the container
  div, which is not a button. -/
inductive Gesture where
  | backgroundClick (moves : List (ℚ × ℚ)) (clientX clientY : ℚ) : Gesture
  | indicatorDrag (moves : List (ℚ × ℚ)) : Gesture
  | indicatorDragReleaseOnBackground (moves : List (ℚ × ℚ))
      (clientX clientY : ℚ) : Gesture
deriving DecidableEq

/-- Dispatch a list of pointer moves through `handleMouseMove`, tagging each
resulting callback invocation as drag-originated. -/
def runMoves (rect : Option Rect) (s : State) :
    List (ℚ × ℚ) → State × List (FocusPoint × Origin)
  | [] => (s, [])
  | m :: ms =>
      let r1 := handleMouseMove rect s m.1 m.2
      let r2 := runMoves rect r1.1 ms
      (r2.1, r1.2.map (fun p => (p, Origin.drag)) ++ r2.2)

/-- Run one gesture. For a background click: the press hits no handler, the
moves go through `handleMouseMove`, the release fires the document-level
listener when one is registered, and the synthetic click event (targeting
the background, hence not a button) reaches `handleContainerClick`. For an
indicator drag released on the indicator: `handleMouseDown` stops
propagation of the press, the moves go through `handleMouseMove`, the
release runs `handleMouseUp`, and the synthetic click targets the indicator
button, whose `onClick` stops propagation, so `handleContainerClick` never
runs. For an indicator drag released over the container background: after
the press and the moves, the release first runs the registered document
`mouseup` listener (`handleMouseUp`; React flushes the resulting state
update before the click task), and the synthetic click then targets the
container itself - the nearest common inclusive ancestor of the button that
was pressed and the background that was released - so the button's
`stopPropagation` is not in its path, `e.target.closest` finds no button,
and `handleContainerClick` runs with the drag flag already cleared. -/
def runGesture (cfg : Config) (rect : Option Rect) (s : State) :
    Gesture → State × List (FocusPoint × Origin)
  | Gesture.backgroundClick moves cx cy =>
      let r1 := runMoves rect s moves
      let s2 := if r1.1.listenersRegistered then handleMouseUp r1.1 else r1.1
      let r3 := handleContainerClick cfg rect s2 cx cy false
      (r3.1, r1.2 ++ r3.2.map (fun p => (p, Origin.click)))
  | Gesture.indicatorDrag moves =>
      let s1 := handleMouseDown s
      let r2 := runMoves rect s1 moves
      (handleMouseUp r2.1, r2.2)
  | Gesture.indicatorDragReleaseOnBackground moves cx cy =>
      let s1 := handleMouseDown s
      let r2 := runMoves rect s1 moves
      let s3 := if r2.1.listenersRegistered then handleMouseUp r2.1 else r2.1
      let r4 := handleContainerClick cfg rect s3 cx cy false
      (r4.1, r2.2 ++ r4.2.map (fun p => (p, Origin.click)))

/-! ## Helper lemmas -/

theorem handleMouseMove_idle (rect : Option Rect) (s : State) (cx cy : ℚ)
    (h : s.canMove = false) : handleMouseMove rect s cx cy = (s, []) := by
  simp [handleMouseMove, h]

theorem handleMouseMove_flags (rect : Option Rect) (s : State) (cx cy : ℚ) :
    (handleMouseMove rect s cx cy).1.canMove = s.canMove ∧
    (handleMouseMove rect s cx cy).1.listenersRegistered
      = s.listenersRegistered ∧
    (handleMouseMove rect s cx cy).1.mounted = s.mounted := by
  cases hc : s.canMove <;> cases rect <;> simp [handleMouseMove, hc]

theorem handleMouseMove_mem (rect : Option Rect) (s : State) (cx cy : ℚ)
    (p : FocusPoint) (hp : p ∈ (handleMouseMove rect s cx cy).2) :
    (handleMouseMove rect s cx cy).1.x = p.x ∧
    (handleMouseMove rect s cx cy).1.y = p.y := by
  cases hc : s.canMove <;> cases rect <;>
    simp [handleMouseMove, hc] at hp ⊢ <;> simp [hp]

theorem handleContainerClick_guards (cfg : Config) (rect : Option Rect)
    (s : State) (cx cy : ℚ) (tb : Bool) (p : FocusPoint)
    (hp : p ∈ (handleContainerClick cfg rect s cx cy tb).2) :
    cfg.allowImageClick = true ∧ s.canMove = false ∧ tb = false := by
  cases ha : cfg.allowImageClick <;> cases hc : s.canMove <;>
    cases htb : tb <;> cases rect <;>
    simp [handleContainerClick, ha, hc, htb] at hp ⊢

theorem handleContainerClick_mem (cfg : Config) (rect : Option Rect)
    (s : State) (cx cy : ℚ) (tb : Bool) (p : FocusPoint)
    (hp : p ∈ (handleContainerClick cfg rect s cx cy tb).2) :
    (handleContainerClick cfg rect s cx cy tb).1.x = p.x ∧
    (handleContainerClick cfg rect s cx cy tb).1.y = p.y := by
  cases ha : cfg.allowImageClick <;> cases hc : s.canMove <;>
    cases htb : tb <;> cases rect <;>
    simp [handleContainerClick, ha, hc, htb] at hp ⊢ <;> simp [hp]

theorem handleContainerClick_dragging (cfg : Config) (rect : Option Rect)
    (s : State) (cx cy : ℚ) (tb : Bool) (h : s.canMove = true) :
    handleContainerClick cfg rect s cx cy tb = (s, []) := by
  simp [handleContainerClick, h]

theorem runMoves_flags (rect : Option Rect) (ms : List (ℚ × ℚ)) (s : State) :
    (runMoves rect s ms).1.canMove = s.canMove ∧
    (runMoves rect s ms).1.listenersRegistered = s.listenersRegistered := by
  induction ms generalizing s with
  | nil => simp [runMoves]
  | cons m ms ih =>
      have h1 := handleMouseMove_flags rect s m.1 m.2
      have h2 := ih (handleMouseMove rect s m.1 m.2).1
      simp only [runMoves]
      exact ⟨h2.1.trans h1.1, h2.2.trans h1.2.1⟩

theorem runMoves_idle (rect : Option Rect) (ms : List (ℚ × ℚ)) (s : State)
    (h : s.canMove = false) : runMoves rect s ms = (s, []) := by
  induction ms with
  | nil => simp [runMoves]
  | cons m ms ih =>
      simp only [runMoves, handleMouseMove_idle rect s m.1 m.2 h]
      simp [ih]

theorem runMoves_origin (rect : Option Rect) (ms : List (ℚ × ℚ)) (s : State)
    (p : FocusPoint) (o : Origin) (hp : (p, o) ∈ (runMoves rect s ms).2) :
    o = Origin.drag := by
  induction ms generalizing s with
  | nil => simp [runMoves] at hp
  | cons m ms ih =>
      simp only [runMoves, List.mem_append, List.mem_map] at hp
      rcases hp with ⟨q, -, hq⟩ | hp
      · exact (congrArg Prod.snd hq).symm
      · exact ih _ hp

/-- With a positive extent, `calculatePercentage` is the exact rational
clamp of `value * 100 / max'`. -/
theorem calculatePercentage_pos (v size : ℚ) (h : 0 < size) :
    calculatePercentage v size
      = JSNum.num (min (max (v * 100 / size) 0) 100) := by
  simp only [calculatePercentage, jsDiv, if_neg (ne_of_gt h), jsMax, jsMin]

/-- Pointer moves while `canMove` is false change nothing and fire no
callback, whatever the mounted flag is. -/
theorem run_moves_noop (cfg : Config) (rect : Option Rect)
    (es : List Event) (s : State) (h : s.canMove = false)
    (hm : ∀ e ∈ es, ∃ a b, e = Event.mouseMove a b) :
    run cfg rect s es = (s, []) := by
  induction es with
  | nil => simp [run]
  | cons e es ih =>
      obtain ⟨a, b, rfl⟩ := hm e (List.mem_cons_self e es)
      have hstep : step cfg rect s (Event.mouseMove a b) = (s, []) := by
        cases hmnt : s.mounted <;>
          simp [step, hmnt, handleMouseMove_idle rect s a b h]
      simp only [run, hstep]
      simp [ih (fun e he => hm e (List.mem_cons_of_mem _ he))]

/-- Per-axis behaviour of `calculatePercentage` for a positive extent:
it is the exact clamp, it lands in `[0, 100]`, and it saturates. -/
theorem calculatePercentage_props (v size : ℚ) (h : 0 < size) :
    calculatePercentage v size
        = JSNum.num (min (max (v * 100 / size) 0) 100) ∧
    inRange (calculatePercentage v size) ∧
    (v ≤ 0 → calculatePercentage v size = JSNum.num 0) ∧
    (size ≤ v → calculatePercentage v size = JSNum.num 100) := by
  have key := calculatePercentage_pos v size h
  refine ⟨key, ⟨_, key, le_min (le_max_right _ _) (by norm_num),
    min_le_right _ _⟩, ?_, ?_⟩
  · intro hv
    have ht : v * 100 / size ≤ 0 := by
      rw [div_nonpos_iff]
      right
      constructor
      · nlinarith
      · linarith
    rw [key, max_eq_right ht, min_eq_left (by norm_num : (0:ℚ) ≤ 100)]
  · intro hv
    have ht : (100:ℚ) ≤ v * 100 / size := by
      rw [le_div_iff₀ h]
      nlinarith
    rw [key, max_eq_left (le_trans (by norm_num) ht), min_eq_right ht]

/-! ## Claim C1 -/

/-- C1 counterexample: the claim quantifies over every bounding rectangle,
but at a zero-sized rectangle with the pointer on its origin the mapper
returns `NaN` (a `0/0` fed through `Math.min`/`Math.max`, which propagate
it), which is not a value in `[0, 100]`. -/
theorem mapper_nan_on_zero_rect :
    (mapper 0 0 ⟨0, 0, 0, 0⟩).1 = JSNum.nan ∧
    ¬ inRange (mapper 0 0 ⟨0, 0, 0, 0⟩).1 := by
  have h : (mapper 0 0 ⟨0, 0, 0, 0⟩).1 = JSNum.nan := by
    norm_num [mapper, calculatePercentage, jsDiv, jsMax, jsMin]
  refine ⟨h, ?_⟩
  rintro ⟨q, hq, -⟩
  rw [h] at hq
  exact JSNum.noConfusion hq

/-- C1 (amended to rectangles of positive width and height): on each axis
independently the mapper computes
`clamp((pointerCoord - rectOrigin) * 100 / rectSize, 0, 100)`; the result is
always in `[0, 100]`, equals `(0,0)` at the rectangle's top-left corner,
equals `(100,100)` at its bottom-right corner, and saturates to `0` or `100`
for any pointer position at or beyond the rectangle edges. -/
theorem mapper_clamped (px py : ℚ) (r : Rect)
    (hw : 0 < r.width) (hh : 0 < r.height) :
    (mapper px py r).1 = JSNum.num (specClamp px r.left r.width) ∧
    (mapper px py r).2 = JSNum.num (specClamp py r.top r.height) ∧
    inRange (mapper px py r).1 ∧ inRange (mapper px py r).2 ∧
    (px = r.left ∧ py = r.top →
      mapper px py r = (JSNum.num 0, JSNum.num 0)) ∧
    (px = r.left + r.width ∧ py = r.top + r.height →
      mapper px py r = (JSNum.num 100, JSNum.num 100)) ∧
    (px ≤ r.left → (mapper px py r).1 = JSNum.num 0) ∧
    (py ≤ r.top → (mapper px py r).2 = JSNum.num 0) ∧
    (r.left + r.width ≤ px → (mapper px py r).1 = JSNum.num 100) ∧
    (r.top + r.height ≤ py → (mapper px py r).2 = JSNum.num 100) := by
  obtain ⟨kx, rx, lx, hx⟩ := calculatePercentage_props (px - r.left) r.width hw
  obtain ⟨ky, ry, ly, hy⟩ := calculatePercentage_props (py - r.top) r.height hh
  have mx : (mapper px py r).1 = calculatePercentage (px - r.left) r.width :=
    rfl
  have my : (mapper px py r).2 = calculatePercentage (py - r.top) r.height :=
    rfl
  have satLX : px ≤ r.left → (mapper px py r).1 = JSNum.num 0 := fun hle =>
    mx.trans (lx (by linarith))
  have satLY : py ≤ r.top → (mapper px py r).2 = JSNum.num 0 := fun hle =>
    my.trans (ly (by linarith))
  have satHX : r.left + r.width ≤ px → (mapper px py r).1 = JSNum.num 100 :=
    fun hle => mx.trans (hx (by linarith))
  have satHY : r.top + r.height ≤ py → (mapper px py r).2 = JSNum.num 100 :=
    fun hle => my.trans (hy (by linarith))
  refine ⟨mx.trans kx, my.trans ky, mx ▸ rx, my ▸ ry, ?_, ?_,
    satLX, satLY, satHX, satHY⟩
  · rintro ⟨hpx, hpy⟩
    exact Prod.ext (satLX (le_of_eq hpx)) (satLY (le_of_eq hpy))
  · rintro ⟨hpx, hpy⟩
    exact Prod.ext (satHX (le_of_eq hpx.symm)) (satHY (le_of_eq hpy.symm))

/-- C1 witness: the hypotheses of `mapper_clamped` hold at the repository's
own 300x300 test rectangle, and there the mapped value lies in `[0, 100]`. -/
theorem mapper_clamped_spot :
    0 < rect300.width ∧ inRange (mapper 75 75 rect300).1 :=
  ⟨by norm_num [rect300],
   (mapper_clamped 75 75 rect300 (by norm_num [rect300])
      (by norm_num [rect300])).2.2.1⟩

/-! ## Claim C2 -/

/-- A state in the middle of a pointer drag: dragging, listeners registered,
mounted, position at the centre. -/
def sDragging : State :=
  { x := JSNum.num 50, y := JSNum.num 50, canMove := true,
    listenersRegistered := true, mounted := true }

/-- C2: evaluation of the code at the failing input. During a drag over a
container whose bounding rectangle is zero-sized, a pointer move with the
pointer on the rectangle origin invokes the change callback with
`{x: NaN, y: NaN}` (a `0 * 100 / 0` passed through `Math.max` / `Math.min`,
which propagate `NaN`), contradicting the claim that the callback argument
is never `NaN` and always in `[0, 100]`. -/
theorem nan_callback_on_zero_rect :
    (handleMouseMove (some ⟨0, 0, 0, 0⟩) sDragging 0 0).2
      = [⟨JSNum.nan, JSNum.nan⟩] ∧
    ¬ inRange JSNum.nan := by
  constructor
  · norm_num [handleMouseMove, sDragging, calculatePercentage, jsDiv,
      jsMax, jsMin]
  · rintro ⟨q, hq, -⟩
    exact JSNum.noConfusion hq

/-! ## Claim C3 -/

/-- C3 counterexample: with a mounted but zero-sized container rectangle, a
container click is not a no-op: the change callback is invoked (here with
the saturated value `{x:100, y:100}`, since the code checks only for a
missing rectangle, never for a zero-sized one). -/
theorem zero_size_click_fires :
    (handleContainerClick cfgDefault (some ⟨0, 0, 0, 0⟩) s0 310 310 false).2
      = [⟨JSNum.num 100, JSNum.num 100⟩] := by
  norm_num [handleContainerClick, cfgDefault, s0, initialState,
    calculatePercentage, jsDiv, jsMax, jsMin]

/-- C3 (amended): when the container's bounding rectangle is unavailable
(the ref is not mounted), a container click and a drag pointer-move are both
no-ops: the callback is not invoked and the state is unchanged (the model is
a total function, mirroring that the source raises no exception on this
path). A zero-sized rectangle, by contrast, does not suppress the
interaction. -/
theorem no_rect_interaction_noop (cfg : Config) (s : State) (cx cy : ℚ)
    (tb : Bool) :
    handleContainerClick cfg none s cx cy tb = (s, []) ∧
    handleMouseMove none s cx cy = (s, []) := by
  constructor
  · cases ha : cfg.allowImageClick <;> cases hc : s.canMove <;> cases tb <;>
      simp [handleContainerClick, ha, hc]
  · cases hc : s.canMove <;> simp [handleMouseMove, hc]

/-! ## Claim C4 -/

/-- C4: evaluation of the code at the failing trace. Press the indicator (a
drag starts and the document-level release listeners are registered), then
unmount the component: the source installs no teardown cleanup for those
listeners, so after unmount the listener pair is still registered - the
claimed unmount safety fails. -/
theorem unmount_during_drag_leaks_listeners :
    (run cfgDefault (some rect300) s0
        [Event.indicatorMouseDown, Event.unmount]).1.listenersRegistered
      = true ∧
    (run cfgDefault (some rect300) s0
        [Event.indicatorMouseDown, Event.unmount]).1.mounted = false := by
  constructor <;> rfl

/-! ## Claim C9 -/

/-- C9: for the 300×300 container at origin `(0,0)`, click-to-set enabled,
Idle state: a click at `(75,75)` invokes the callback with `{x:25, y:25}`, a
click at `(-10,-10)` with `{x:0, y:0}`, and a click at `(310,310)` with
`{x:100, y:100}`. -/
theorem clicks_on_300_container :
    (step cfgDefault (some rect300) s0 (Event.containerClick 75 75 false)).2
      = [⟨JSNum.num 25, JSNum.num 25⟩] ∧
    (step cfgDefault (some rect300) s0
        (Event.containerClick (-10) (-10) false)).2
      = [⟨JSNum.num 0, JSNum.num 0⟩] ∧
    (step cfgDefault (some rect300) s0
        (Event.containerClick 310 310 false)).2
      = [⟨JSNum.num 100, JSNum.num 100⟩] := by
  refine ⟨?_, ?_, ?_⟩ <;>
    norm_num [step, handleContainerClick, cfgDefault, rect300, s0,
      initialState, calculatePercentage, jsDiv, jsMax, jsMin, max_def,
      min_def]

/-! ## Claim C5 -/

/-- A controlled component's state whose displayed position matches an
external value `{x:30, y:40}`. -/
def sControlled : State :=
  { x := JSNum.num 30, y := JSNum.num 40, canMove := false,
    listenersRegistered := false, mounted := true }

/-- C5 counterexample: the effect's change detection is by reference
identity (React compares the `[initialFocusPoint]` dependency with
`Object.is`), not by value equality. When the same prop object (reference
`0`) has its fields mutated from `{30,40}` to `{60,70}`, the external value
has changed by value, yet the effect does not re-run and the displayed
position keeps `{30,40}`. -/
theorem mutated_prop_not_detected :
    focusPointEffect (some ⟨0, ⟨JSNum.num 30, JSNum.num 40⟩⟩)
        (some ⟨0, ⟨JSNum.num 60, JSNum.num 70⟩⟩) sControlled = sControlled ∧
    (⟨JSNum.num 60, JSNum.num 70⟩ : FocusPoint)
        ≠ ⟨JSNum.num 30, JSNum.num 40⟩ ∧
    sControlled.x ≠ JSNum.num 60 := by
  refine ⟨rfl, ?_, ?_⟩
  · norm_num [FocusPoint.mk.injEq, JSNum.num.injEq]
  · norm_num [sControlled, JSNum.num.injEq]

/-- C5 (amended): the widget detects a change of the externally supplied
FocusPoint by reference identity of the prop object, not by value equality;
whenever the prop is present and its reference differs from the previous
render's (so the dependency comparison fails), the displayed position is
overwritten to the prop's value with no user gesture, and the drag flag is
untouched. -/
theorem controlled_update_on_new_reference (prev next : Option PropObject)
    (s : State) (p : PropObject) (hn : next = some p)
    (hd : depsEqual prev next = false) :
    (focusPointEffect prev next s).x = p.value.x ∧
    (focusPointEffect prev next s).y = p.value.y ∧
    (focusPointEffect prev next s).canMove = s.canMove := by
  subst hn
  simp [focusPointEffect, hd]

/-- C5 witness: supplying a fresh prop object after a render with no prop
fails the dependency comparison and overwrites the displayed `x`. -/
theorem controlled_update_spot :
    depsEqual none (some ⟨1, ⟨JSNum.num 60, JSNum.num 70⟩⟩) = false ∧
    (focusPointEffect none (some ⟨1, ⟨JSNum.num 60, JSNum.num 70⟩⟩)
        sControlled).x = JSNum.num 60 :=
  ⟨rfl, (controlled_update_on_new_reference none
      (some ⟨1, ⟨JSNum.num 60, JSNum.num 70⟩⟩) sControlled
      ⟨1, ⟨JSNum.num 60, JSNum.num 70⟩⟩ rfl rfl).1⟩

/-! ## Claim C7 -/

/-- C7 counterexample: enter Dragging by keyboard toggle (Enter). A release
then occurs outside the widget's element tree, but the keyboard toggle
registered no document listener, so the state stays Dragging and the next
pointer-move still fires the callback - against the claim that a release
observed anywhere while Dragging yields Idle with no further callbacks. -/
theorem outside_release_misses_keyboard_drag :
    (run cfgDefault (some rect300) s0
        [Event.keyDown ("Enter"), Event.documentMouseUp,
         Event.mouseMove 150 150]).1.canMove = true ∧
    (run cfgDefault (some rect300) s0
        [Event.keyDown ("Enter"), Event.documentMouseUp,
         Event.mouseMove 150 150]).2
      = [⟨JSNum.num 50, JSNum.num 50⟩] := by
  constructor
  · rfl
  · norm_num [run, step, onKeyDown, handleMouseMove, cfgDefault, rect300,
      s0, initialState, calculatePercentage, jsDiv, jsMax, jsMin, max_def,
      min_def]

/-- C7 (amended): while Dragging with the document release listeners
registered - the case for every drag begun by an indicator press - a release
observed anywhere, including outside the widget's element tree, transitions
the state to Idle, itself fires no callback, leaves the position unchanged,
and every subsequent pointer-move produces no callback and no state change
until a new drag starts. A Dragging state entered only by keyboard toggle
has no registered listeners and is not terminated by an outside release. -/
theorem registered_release_ends_drag (cfg : Config) (rect : Option Rect)
    (s : State) (hl : s.listenersRegistered = true) :
    (step cfg rect s Event.documentMouseUp).1.canMove = false ∧
    (step cfg rect s Event.documentMouseUp).2 = [] ∧
    (step cfg rect s Event.documentMouseUp).1.x = s.x ∧
    (step cfg rect s Event.documentMouseUp).1.y = s.y ∧
    (∀ es, (∀ e ∈ es, ∃ a b, e = Event.mouseMove a b) →
      run cfg rect (step cfg rect s Event.documentMouseUp).1 es
        = ((step cfg rect s Event.documentMouseUp).1, [])) := by
  have hstep : step cfg rect s Event.documentMouseUp
      = (handleMouseUp s, []) := by
    simp [step, hl]
  rw [hstep]
  exact ⟨rfl, rfl, rfl, rfl, fun es hm =>
    run_moves_noop cfg rect es (handleMouseUp s) rfl hm⟩

/-- C7 witness: from the mid-drag state the outside release does end the
drag. -/
theorem registered_release_ends_drag_spot :
    sDragging.listenersRegistered = true ∧
    (step cfgDefault (some rect300) sDragging
        Event.documentMouseUp).1.canMove = false :=
  ⟨rfl, (registered_release_ends_drag cfgDefault (some rect300) sDragging
      rfl).1⟩

/-! ## Claim C8 -/

/-- C8 counterexample: the claim says a keyboard-toggled drag has the same
termination behaviour as a held drag, including termination by a release
outside the widget. But after toggling with Space, an outside release does
not end the drag (a later move still fires the callback), while after an
indicator press the very same outside release does end it (the same move
fires nothing). -/
theorem keyboard_drag_termination_differs :
    (run cfgDefault (some rect300) s0
        [Event.keyDown (" "), Event.documentMouseUp,
         Event.mouseMove 225 225]).2
      = [⟨JSNum.num 75, JSNum.num 75⟩] ∧
    (run cfgDefault (some rect300) s0
        [Event.indicatorMouseDown, Event.documentMouseUp,
         Event.mouseMove 225 225]).2 = [] := by
  constructor
  · norm_num [run, step, onKeyDown, handleMouseMove, cfgDefault, rect300,
      s0, initialState, calculatePercentage, jsDiv, jsMax, jsMin, max_def,
      min_def]
  · rfl

/-- C8 (amended): Enter or Space while the indicator has focus toggles the
state between Idle and Dragging without a pointer press, firing no callback
and moving nothing; while toggled into Dragging, a pointer-move over the
container produces exactly the same callbacks as under a pointer-held drag
(the move handler consults only the drag flag, the rectangle and the pointer
position); and toggling twice restores the original state with no position
change. Termination differs from a held drag in one point: the toggle
registers no document listeners, so an outside release does not end a
keyboard-toggled drag. -/
theorem keyboard_toggle_behaviour (cfg : Config) (rect : Option Rect)
    (s s₁ s₂ : State) (k : String) (cx cy : ℚ)
    (hmnt : s.mounted = true) (hk : k = "Enter" ∨ k = " ")
    (h₁ : s₁.canMove = true) (h₂ : s₂.canMove = true) :
    (step cfg rect s (Event.keyDown k)).1.canMove = !s.canMove ∧
    (step cfg rect s (Event.keyDown k)).1.x = s.x ∧
    (step cfg rect s (Event.keyDown k)).1.y = s.y ∧
    (step cfg rect s (Event.keyDown k)).1.listenersRegistered
      = s.listenersRegistered ∧
    (step cfg rect s (Event.keyDown k)).2 = [] ∧
    (handleMouseMove rect s₁ cx cy).2 = (handleMouseMove rect s₂ cx cy).2 ∧
    (run cfg rect s [Event.keyDown k, Event.keyDown k]).1.canMove
      = s.canMove ∧
    (run cfg rect s [Event.keyDown k, Event.keyDown k]).1.x = s.x ∧
    (run cfg rect s [Event.keyDown k, Event.keyDown k]).1.y = s.y ∧
    (run cfg rect s [Event.keyDown k, Event.keyDown k]).2 = [] := by
  have honce : ∀ t : State, onKeyDown t k = { t with canMove := !t.canMove } :=
    fun t => by simp only [onKeyDown, if_pos hk]
  have hstep : step cfg rect s (Event.keyDown k)
      = ({ s with canMove := !s.canMove }, []) := by
    simp [step, hmnt, honce]
  have hrun : run cfg rect s [Event.keyDown k, Event.keyDown k]
      = ({ s with canMove := !(!s.canMove) }, []) := by
    simp [run, step, hmnt, honce]
  refine ⟨by rw [hstep], by rw [hstep], by rw [hstep], by rw [hstep],
    by rw [hstep], ?_, by rw [hrun]; simp, by rw [hrun], by rw [hrun],
    by rw [hrun]⟩
  cases rect with
  | none => simp [handleMouseMove, h₁, h₂]
  | some r => simp [handleMouseMove, h₁, h₂]

/-- C8 witness: the toggle hypotheses hold at the initial state with the
Enter key, and the toggle flips the drag flag. -/
theorem keyboard_toggle_spot :
    s0.mounted = true ∧
    (step cfgDefault (some rect300) s0
        (Event.keyDown ("Enter"))).1.canMove = !s0.canMove :=
  ⟨rfl, (keyboard_toggle_behaviour cfgDefault (some rect300) s0 sDragging
      sDragging ("Enter") 150 150 rfl (Or.inl rfl) rfl rfl).1⟩

/-! ## Claim C10 -/

/-- C10: every invocation of the change callback passes exactly the pair the
internal displayed position is simultaneously set to: whenever dispatching
an event invokes the callback with `p`, the state produced by that same
event has `x = p.x` and `y = p.y` (and the indicator position and image crop
anchor are both rendered from that state). -/
theorem callback_matches_displayed (cfg : Config) (rect : Option Rect)
    (s : State) (e : Event) (p : FocusPoint)
    (hp : p ∈ (step cfg rect s e).2) :
    (step cfg rect s e).1.x = p.x ∧ (step cfg rect s e).1.y = p.y := by
  cases e with
  | mouseMove cx cy =>
      cases hmnt : s.mounted <;> simp [step, hmnt] at hp ⊢
      exact handleMouseMove_mem rect s cx cy p hp
  | containerClick cx cy tb =>
      cases hmnt : s.mounted <;> simp [step, hmnt] at hp ⊢
      exact handleContainerClick_mem cfg rect s cx cy tb p hp
  | indicatorMouseDown =>
      cases hmnt : s.mounted <;> simp [step, hmnt] at hp
  | indicatorMouseUp =>
      cases hmnt : s.mounted <;> simp [step, hmnt] at hp
  | documentMouseUp =>
      cases hl : s.listenersRegistered <;> simp [step, hl] at hp
  | keyDown k =>
      cases hmnt : s.mounted <;> simp [step, hmnt] at hp
  | unmount => simp [step] at hp

/-- C10 witness: at the test click the callback value `{25,25}` is also the
new displayed position. -/
theorem callback_matches_displayed_spot :
    (step cfgDefault (some rect300) s0
        (Event.containerClick 75 75 false)).1.x = JSNum.num 25 :=
  (callback_matches_displayed cfgDefault (some rect300) s0
    (Event.containerClick 75 75 false) ⟨JSNum.num 25, JSNum.num 25⟩
    (by norm_num [step, handleContainerClick, cfgDefault, rect300, s0,
      initialState, calculatePercentage, jsDiv, jsMax, jsMin, max_def,
      min_def])).1

/-! ## Claim C6 -/

/-- Shape of a background-click gesture when no listeners are pending at its
start: moves, then the click dispatch on the background. -/
theorem runGesture_background (cfg : Config) (rect : Option Rect) (s : State)
    (ms : List (ℚ × ℚ)) (cx cy : ℚ) (hls : s.listenersRegistered = false) :
    runGesture cfg rect s (Gesture.backgroundClick ms cx cy)
      = ((handleContainerClick cfg rect (runMoves rect s ms).1 cx cy
            false).1,
         (runMoves rect s ms).2
           ++ (handleContainerClick cfg rect (runMoves rect s ms).1 cx cy
                 false).2.map (fun p => (p, Origin.click))) := by
  have hlr1 : (runMoves rect s ms).1.listenersRegistered = false :=
    (runMoves_flags rect ms s).2.trans hls
  simp [runGesture, hlr1]

/-- Shape of an indicator drag released over the container background: the
press registers the document listeners, the moves preserve them, so the
release always runs `handleMouseUp` before the synthetic click reaches
`handleContainerClick` with a background target. -/
theorem runGesture_dragReleaseBackground (cfg : Config) (rect : Option Rect)
    (s : State) (ms : List (ℚ × ℚ)) (cx cy : ℚ) :
    runGesture cfg rect s
        (Gesture.indicatorDragReleaseOnBackground ms cx cy)
      = ((handleContainerClick cfg rect
            (handleMouseUp (runMoves rect (handleMouseDown s) ms).1) cx cy
            false).1,
         (runMoves rect (handleMouseDown s) ms).2
           ++ (handleContainerClick cfg rect
                 (handleMouseUp (runMoves rect (handleMouseDown s) ms).1)
                 cx cy false).2.map (fun p => (p, Origin.click))) := by
  have hlr : (runMoves rect (handleMouseDown s) ms).1.listenersRegistered
      = true := (runMoves_flags rect ms (handleMouseDown s)).2
  simp [runGesture, hlr]

/-- When click-to-set is enabled, the drag flag is down and the rectangle is
present, the container click handler fires exactly one callback, at the
mapped position. -/
theorem handleContainerClick_fires (cfg : Config) (s : State) (cx cy : ℚ)
    (r : Rect) (ha : cfg.allowImageClick = true) (hc : s.canMove = false) :
    (handleContainerClick cfg (some r) s cx cy false).2
      = [⟨calculatePercentage (cx - r.left) r.width,
          calculatePercentage (cy - r.top) r.height⟩] := by
  simp [handleContainerClick, ha, hc]

/-- C6 counterexample: one single gesture - press the indicator, drag to
`(150,150)` (the drag path fires `{50,50}`), release over the container
background - invokes the callback both as a drag and as a click: the
release's document `mouseup` listener clears the drag flag, and the
gesture's synthetic click event targets the container (the nearest common
inclusive ancestor of the pressed button and the released background), so
`handleContainerClick` passes all its guards and fires `{50,50}` again,
click-originated, in the same gesture. -/
theorem drag_release_on_background_double_fires :
    (runGesture cfgDefault (some rect300) s0
        (Gesture.indicatorDragReleaseOnBackground [(150, 150)] 150 150)).2
      = [(⟨JSNum.num 50, JSNum.num 50⟩, Origin.drag),
         (⟨JSNum.num 50, JSNum.num 50⟩, Origin.click)] := by
  norm_num [runGesture, runMoves, handleMouseMove, handleMouseDown,
    handleMouseUp, handleContainerClick, cfgDefault, rect300, s0,
    initialState, calculatePercentage, jsDiv, jsMax, jsMin, max_def, min_def]

/-- C6 (amended): a container click invokes the change callback only when
click-to-set is enabled, the drag flag is down at the time of the click,
and the click target is not the indicator control. A background click
started while no drag holds the pointer (no document listeners pending -
with a single pointer a fresh press is impossible while a drag holds the
button) never produces both a click-originated and a drag-originated
callback, and a drag released on the indicator itself never produces a
click-originated callback. Click and drag are, however, not mutually
exclusive for every gesture: a drag released over the container background
additionally fires a click-originated callback whenever click-to-set is
enabled and the rectangle is present, because the synthetic click targets
the container after the release listener has already cleared the drag
flag. -/
theorem gesture_click_paths (cfg : Config) (rect : Option Rect) (s : State)
    (ms : List (ℚ × ℚ)) (cx cy : ℚ)
    (hbg : s.listenersRegistered = false) :
    (∀ (s₂ : State) (a b : ℚ) (tb : Bool) (p : FocusPoint),
        p ∈ (handleContainerClick cfg rect s₂ a b tb).2 →
        cfg.allowImageClick = true ∧ s₂.canMove = false ∧ tb = false) ∧
    ¬ ((∃ p, (p, Origin.click) ∈
          (runGesture cfg rect s (Gesture.backgroundClick ms cx cy)).2) ∧
       (∃ q, (q, Origin.drag) ∈
          (runGesture cfg rect s (Gesture.backgroundClick ms cx cy)).2)) ∧
    (∀ p, (p, Origin.click) ∈
        (runGesture cfg rect s (Gesture.indicatorDrag ms)).2 → False) ∧
    (∀ r, rect = some r → cfg.allowImageClick = true →
      (⟨calculatePercentage (cx - r.left) r.width,
        calculatePercentage (cy - r.top) r.height⟩, Origin.click) ∈
        (runGesture cfg rect s
          (Gesture.indicatorDragReleaseOnBackground ms cx cy)).2) := by
  refine ⟨fun s₂ a b tb p hp =>
    handleContainerClick_guards cfg rect s₂ a b tb p hp, ?_, ?_, ?_⟩
  · rw [runGesture_background cfg rect s ms cx cy hbg]
    cases hcm : s.canMove with
    | false =>
        rw [runMoves_idle rect ms s hcm]
        rintro ⟨-, ⟨q, hq⟩⟩
        simp only [List.nil_append, List.mem_map] at hq
        obtain ⟨a, -, hae⟩ := hq
        exact Origin.noConfusion (congrArg Prod.snd hae)
    | true =>
        rw [handleContainerClick_dragging cfg rect (runMoves rect s ms).1
          cx cy false ((runMoves_flags rect ms s).1.trans hcm)]
        rintro ⟨⟨p, hp⟩, -⟩
        simp only [List.map_nil, List.append_nil] at hp
        exact absurd (runMoves_origin rect ms s p Origin.click hp) (by simp)
  · intro p hp
    simp only [runGesture] at hp
    exact absurd (runMoves_origin rect ms (handleMouseDown s) p
      Origin.click hp) (by simp)
  · rintro r rfl ha
    rw [runGesture_dragReleaseBackground]
    have hcu : (handleMouseUp
        (runMoves (some r) (handleMouseDown s) ms).1).canMove = false := rfl
    rw [handleContainerClick_fires cfg _ cx cy r ha hcu]
    simp

/-- C6 witness: the guards named by the amended theorem were satisfied at
the plain background click at `(75,75)` from the idle initial state. -/
theorem gesture_click_paths_spot :
    cfgDefault.allowImageClick = true ∧ s0.canMove = false := by
  have h := (gesture_click_paths cfgDefault (some rect300) s0 [] 75 75
      rfl).1 s0 75 75 false ⟨JSNum.num 25, JSNum.num 25⟩
    (by norm_num [handleContainerClick, cfgDefault, rect300, s0,
      initialState, calculatePercentage, jsDiv, jsMax, jsMin, max_def,
      min_def])
  exact ⟨h.1, h.2.1⟩

end FocusPointSpec
